import Mathlib

/-!
Verification development for the build driver in src/run.rs of the
turtle-build repository.  The driver schedules build tasks, decides
staleness through a fingerprint database, integrates dynamic dependency
modules and executes shell commands.

Modelling conventions.  The asynchronous task body spawned by
spawn_build_future is embedded as a sequential function; awaiting the
shared handle of another target is represented by an environment
function giving that handle its terminal state.  Filesystem metadata,
file contents, the dynamic parser and compiler, the graph registry
insertion, the fingerprint database and command execution are likewise
environment functions, because those collaborators live in modules that
are external to src/run.rs; each such definition carries a note.
Machine integers are natural numbers reduced modulo 2 ^ 64 where the
source uses u64.
-/

deriving instance DecidableEq for Except

namespace Turtle

/-- Last-modified time of a file, mirroring the seconds and nanoseconds
of a Rust SystemTime measured from the epoch. -/
structure Timestamp where
  secs : Nat
  nanos : Nat
deriving DecidableEq, Repr

/-- Rule attached to a target: a shell command and an optional
description, mirroring ir::Rule as used by run.rs. -/
structure Rule where
  command : String
  description : Option String
deriving DecidableEq, Repr

/-- Target of the build graph, mirroring ir::Build as used by run.rs:
identity, optional rule, explicit inputs, order-only inputs, outputs,
implicit outputs and an optional dynamic module path. -/
structure Build where
  id : String
  rule : Option Rule
  inputs : List String
  order_only_inputs : List String
  outputs : List String
  implicit_outputs : List String
  dynamic_module : Option String
deriving DecidableEq, Repr

/-- Error values of the driver, modelling InfrastructureError from the
spec list of failure reasons (error.rs is not under src/).  The
keyNotFoundPanic constructor models the abnormal termination produced
when the task body indexes the configuration outputs map with a key
that is absent: the Rust HashMap index operation panics and the panic
surfaces through the task join as a non-specific failure. -/
inductive BuildError where
  | defaultOutputNotFound (output : String)
  | dynamicDependencyNotFound (buildId : String)
  | ioError (path : String)
  | commandExit (command : String) (code : Option Int)
  | databaseError (message : String)
  | graphError (message : String)
  | parseCompileError (message : String)
  | keyNotFoundPanic (key : String)
deriving DecidableEq, Repr

/-- Filesystem view: the last-modified timestamp of each path, with
none meaning that the metadata call fails for that path. -/
abbrev FS := String → Option Timestamp

/-- Configuration fragment produced by the dynamic parser and compiler:
for an output name, the list of inputs of the build producing it
(compile.rs and parse.rs are not under src/; modelled from the spec
shape of a fragment with an outputs mapping). -/
structure DynamicConfiguration where
  outputs : String → Option (List String)

/-- Static configuration as consumed by run.rs: the mapping from output
name to producing target and the list of default outputs. -/
structure Configuration where
  outputs : String → Option Build
  default_outputs : List String

/-- Captured result of running a shell command: stdout, stderr and the
exit code, none meaning termination without a code.  Success of the
status is exit code zero. -/
structure CommandOutput where
  stdout : String
  stderr : String
  exitCode : Option Int
deriving DecidableEq, Repr

/-- Console stream selector for ordered console events. -/
inductive ConsoleStream where
  | stdout
  | stderr
deriving DecidableEq, Repr

/-- Environment of one task body.  The fields embed the collaborators
of run.rs: fs is tokio metadata, fileContents is utilities::read_file,
parseCompile composes parse_dynamic and compile_dynamic, graphInsert is
the locked BuildGraph insertion, await gives the terminal state of the
shared handle registered for a target identity, dbGet and dbSet are the
fingerprint database operations (build_database.rs is not under src/;
modelled from the spec as a partial map with fallible access), and
runCommand executes a command through the shell. -/
structure Env where
  fs : FS
  fileContents : String → Option String
  parseCompile : String → Except BuildError DynamicConfiguration
  graphInsert : DynamicConfiguration → Except BuildError Unit
  await : String → Except BuildError Unit
  dbGet : String → Except BuildError (Option Nat)
  dbSet : String → Nat → Except BuildError Unit
  runCommand : String → CommandOutput
  debug : Bool

/-- Existence probe of check_file_existence in run.rs: stat the path
and fail with an I/O error carrying the path when metadata fails. -/
def check_file_existence (fs : FS) (path : String) : Except BuildError Unit :=
  match fs path with
  | some _ => Except.ok ()
  | none => Except.error (BuildError.ioError path)

/-- Timestamp lookup of get_timestamp in run.rs: return the modified
time or fail with an I/O error carrying the path. -/
def get_timestamp (fs : FS) (path : String) : Except BuildError Timestamp :=
  match fs path with
  | some t => Except.ok t
  | none => Except.error (BuildError.ioError path)

/-- Joint await of a list of handle results, modelling join_builds with
try_join_all in run.rs: succeed when all succeed, otherwise fail with
the first failure in list order. -/
def join_builds : List (Except BuildError Unit) → Except BuildError Unit
  | [] => Except.ok ()
  | Except.ok _ :: rest => join_builds rest
  | Except.error e :: _ => Except.error e

/-- Boolean success test of an Except value, modelling is_ok. -/
def exceptOk {α : Type} : Except BuildError α → Bool
  | Except.ok _ => true
  | Except.error _ => false

/-- Phase A of the task body: for each explicit input followed by each
order-only input, await the producing target when the configuration has
one and otherwise stat the path as a source file; join all results. -/
def await_inputs (cfg : Configuration) (env : Env) (b : Build) : Except BuildError Unit :=
  join_builds ((b.inputs ++ b.order_only_inputs).map fun input =>
    match cfg.outputs input with
    | some producer => env.await producer.id
    | none => check_file_existence env.fs input)

/-- File read, modelling utilities::read_file with failure reported as
an I/O error carrying the path. -/
def read_file (env : Env) (path : String) : Except BuildError String :=
  match env.fileContents path with
  | some s => Except.ok s
  | none => Except.error (BuildError.ioError path)

/-- Phase B of the task body: when the target names a dynamic module,
read, parse and compile it, insert the fragment into the graph registry,
then take as dynamic inputs the input list of the first output of the
target found in the fragment outputs mapping, failing with the dynamic
dependency not found error when no output matches; without a dynamic
module the dynamic input list is empty. -/
def resolve_dynamic (env : Env) (b : Build) : Except BuildError (List String) :=
  match b.dynamic_module with
  | none => Except.ok []
  | some modulePath =>
    match read_file env modulePath with
    | Except.error e => Except.error e
    | Except.ok source =>
      match env.parseCompile source with
      | Except.error e => Except.error e
      | Except.ok dcfg =>
        match env.graphInsert dcfg with
        | Except.error e => Except.error e
        | Except.ok _ =>
          match b.outputs.findSome? dcfg.outputs with
          | some dynamicInputs => Except.ok dynamicInputs
          | none => Except.error (BuildError.dynamicDependencyNotFound b.id)

/-- Collection step of phase C: look up the producing target of every
dynamic input in the original configuration outputs map.  The source
indexes the map directly, so a missing key terminates the task
abnormally, modelled by the keyNotFoundPanic error at the first absent
key in list order. -/
def collect_dynamic (cfg : Configuration) : List String → Except BuildError (List String)
  | [] => Except.ok []
  | input :: rest =>
    match cfg.outputs input with
    | none => Except.error (BuildError.keyNotFoundPanic input)
    | some producer =>
      match collect_dynamic cfg rest with
      | Except.error e => Except.error e
      | Except.ok ids => Except.ok (producer.id :: ids)

/-- Phase C of the task body: register and await the producing target
of every dynamic input. -/
def await_dynamic (cfg : Configuration) (env : Env) (dynamicInputs : List String) :
    Except BuildError Unit :=
  match collect_dynamic cfg dynamicInputs with
  | Except.error e => Except.error e
  | Except.ok ids => join_builds (ids.map env.await)

/-- Little-endian byte decomposition of a natural number into the given
number of bytes. -/
def natLEBytes : Nat → Nat → List Nat
  | _, 0 => []
  | n, w + 1 => n % 256 :: natLEBytes (n / 256) w

/-- Modelled from the spec: byte encoding of one timestamp as the
little-endian bytes of its seconds followed by the little-endian bytes
of its nanoseconds, per the fingerprint stability note (the concrete
Hash implementation of SystemTime lives outside this repository). -/
def encode_timestamp (t : Timestamp) : List Nat :=
  natLEBytes t.secs 8 ++ natLEBytes t.nanos 4

/-- Modelled from the spec: byte encoding of the optional command
string hashed by hash_build, a sentinel byte for the absent rule and a
distinct tag followed by the command character codes otherwise. -/
def encode_command : Option String → List Nat
  | none => [0]
  | some command => 1 :: command.data.map Char.toNat

/-- Offset basis of the 64-bit FNV-1a hash. -/
def fnvOffset : Nat := 14695981039346656037

/-- Multiplicative prime of the 64-bit FNV-1a hash. -/
def fnvPrime : Nat := 1099511628211

/-- Single mixing step of the 64-bit FNV-1a hash. -/
def fnvStep (h byte : Nat) : Nat := ((h ^^^ byte) * fnvPrime) % 2 ^ 64

/-- Fold of the mixing step over a byte list. -/
def fnvFold (h : Nat) (bytes : List Nat) : Nat := bytes.foldl fnvStep h

/-- Modelled from the spec: the deterministic 64-bit combination of the
command bytes and the timestamp encodings in declared order, standing
for the DefaultHasher digest taken by hash_build (the hasher lives in
the standard library, outside this repository). -/
def fingerprint (command : Option String) (timestamps : List Timestamp) : Nat :=
  fnvFold (fnvFold fnvOffset (encode_command command))
    (List.flatten (timestamps.map encode_timestamp))

/-- Timestamp collection of hash_build: stat every path in order and
either return all timestamps or fail with the first I/O error in list
order, mirroring join_all followed by collect into a result. -/
def collect_timestamps (fs : FS) : List String → Except BuildError (List Timestamp)
  | [] => Except.ok []
  | path :: rest =>
    match fs path with
    | none => Except.error (BuildError.ioError path)
    | some t =>
      match collect_timestamps fs rest with
      | Except.error e => Except.error e
      | Except.ok ts => Except.ok (t :: ts)

/-- Fingerprint computation of hash_build in run.rs: hash the optional
command of the rule, then the timestamps of the explicit inputs
followed by the dynamic inputs, in that order; order-only inputs are
not consulted and a missing input makes the computation fail. -/
def hash_build (b : Build) (dynamicInputs : List String) (fs : FS) :
    Except BuildError Nat :=
  match collect_timestamps fs (b.inputs ++ dynamicInputs) with
  | Except.error e => Except.error e
  | Except.ok ts => Except.ok (fingerprint (b.rule.map Rule.command) ts)

/-- Output presence test of the staleness decision: the joint existence
check over outputs followed by implicit outputs, reduced to a boolean
exactly as the source reduces the joined stat results with is_ok. -/
def outputs_exist (b : Build) (fs : FS) : Bool :=
  exceptOk (join_builds ((b.outputs ++ b.implicit_outputs).map (check_file_existence fs)))

/-- Result of run_rule: the success or failure of the command together
with the ordered console events it emits. -/
structure RunRuleOutcome where
  result : Except BuildError Unit
  events : List (ConsoleStream × String)
deriving DecidableEq, Repr

/-- Command execution of run_rule in run.rs: run the command through
the shell, then under the console lock write the command line to stderr
when debug is enabled, the description to stderr when present, the
captured child stdout to stdout and the captured child stderr to
stderr; fail with the command exit error when the status is not
success. -/
def run_rule (env : Env) (rule : Rule) : RunRuleOutcome :=
  let output := env.runCommand rule.command
  { result :=
      if output.exitCode = some 0 then Except.ok ()
      else Except.error (BuildError.commandExit rule.command output.exitCode)
    events :=
      (if env.debug then [(ConsoleStream.stderr, rule.command ++ "\n")] else []) ++
      (match rule.description with
       | some d => [(ConsoleStream.stderr, d ++ "\n")]
       | none => []) ++
      [(ConsoleStream.stdout, output.stdout), (ConsoleStream.stderr, output.stderr)]
  }

/-- Observable outcome of one task body: terminal state of the handle,
database writes performed, commands executed and console events. -/
structure TaskOutcome where
  result : Except BuildError Unit
  dbWrites : List (String × Nat)
  commandsRun : List String
  events : List (ConsoleStream × String)
deriving DecidableEq, Repr

/-- Outcome of a task that failed before performing any effect beyond
its phases. -/
def failTask (e : BuildError) : TaskOutcome :=
  { result := Except.error e, dbWrites := [], commandsRun := [], events := [] }

/-- Phases D to F of the task body: compare the stored fingerprint with
the computed one and probe the outputs; when up to date return success
with no command and no write, otherwise run the rule when present and
then record the fingerprint, any failure preventing the write. -/
def finish_task (env : Env) (b : Build) (h : Nat) (stored : Option Nat) : TaskOutcome :=
  if stored == some h && outputs_exist b env.fs then
    { result := Except.ok (), dbWrites := [], commandsRun := [], events := [] }
  else
    match b.rule with
    | some rule =>
      let rr := run_rule env rule
      match rr.result with
      | Except.error e =>
        { result := Except.error e, dbWrites := [], commandsRun := [rule.command]
          events := rr.events }
      | Except.ok _ =>
        match env.dbSet b.id h with
        | Except.error e =>
          { result := Except.error e, dbWrites := [], commandsRun := [rule.command]
            events := rr.events }
        | Except.ok _ =>
          { result := Except.ok (), dbWrites := [(b.id, h)], commandsRun := [rule.command]
            events := rr.events }
    | none =>
      match env.dbSet b.id h with
      | Except.error e =>
        { result := Except.error e, dbWrites := [], commandsRun := [], events := [] }
      | Except.ok _ =>
        { result := Except.ok (), dbWrites := [(b.id, h)], commandsRun := [], events := [] }

/-- Task body spawned by spawn_build_future in run.rs: await the
explicit and order-only inputs, resolve and insert the dynamic module,
await the dynamic inputs, compute the fingerprint, read the database
and finish with the staleness decision, execution and commit phases;
the first failing step becomes the terminal state of the handle. -/
def task_body (cfg : Configuration) (env : Env) (b : Build) : TaskOutcome :=
  match await_inputs cfg env b with
  | Except.error e => failTask e
  | Except.ok _ =>
    match resolve_dynamic env b with
    | Except.error e => failTask e
    | Except.ok dynamicInputs =>
      match await_dynamic cfg env dynamicInputs with
      | Except.error e => failTask e
      | Except.ok _ =>
        match hash_build b dynamicInputs env.fs with
        | Except.error e => failTask e
        | Except.ok h =>
          match env.dbGet b.id with
          | Except.error e => failTask e
          | Except.ok stored => finish_task env b h stored

/-- Task table mapping target identity to the handle of the spawned
task, the handle represented by a numeric token. -/
abbrev TaskTable := List (String × Nat)

/-- Registration of create_build_future in run.rs: under the exclusive
table lock, return unchanged without spawning when the identity is
present, otherwise spawn and store exactly one handle.  The boolean
reports whether a task was spawned; atomicity of the locked section is
represented by the operation being a single transition. -/
def create_build_future (table : TaskTable) (buildId : String) (handle : Nat) :
    TaskTable × Bool :=
  if (table.lookup buildId).isSome then (table, false)
  else ((buildId, handle) :: table, true)

/-- Number of entries of the table holding the given identity. -/
def countKey (table : TaskTable) (key : String) : Nat :=
  (table.filter fun p => p.fst == key).length

/-- Environment of the top-level run function: outcome of constructing
the build graph from the configuration outputs (validation.rs is not
under src/; modelled from the spec as a fallible validation), outcome
of opening the database in the build directory, and the terminal state
of each registered task. -/
structure RunEnv where
  validateGraph : Except BuildError Unit
  openDatabase : Except BuildError Unit
  await : String → Except BuildError Unit

/-- Observable outcome of run: the result, whether the database was
opened and the identities of the registered default tasks. -/
structure RunOutcome where
  result : Except BuildError Unit
  databaseOpened : Bool
  registered : List String
deriving DecidableEq, Repr

/-- Registration loop of run over the default outputs: look each
default output up in the configuration, fail with the default output
not found error at the first absent one, and otherwise register the
producing target once. -/
def register_defaults (cfg : Configuration) (acc : List String) :
    List String → List String × Except BuildError Unit
  | [] => (acc, Except.ok ())
  | output :: rest =>
    match cfg.outputs output with
    | none => (acc, Except.error (BuildError.defaultOutputNotFound output))
    | some b =>
      register_defaults cfg (if acc.contains b.id then acc else acc ++ [b.id]) rest

/-- Entry point run of run.rs: construct the build graph from the
configuration outputs first, then open the database while creating the
context, then register a task per default output and finally join all
registered tasks. -/
def run (cfg : Configuration) (env : RunEnv) : RunOutcome :=
  match env.validateGraph with
  | Except.error e => { result := Except.error e, databaseOpened := false, registered := [] }
  | Except.ok _ =>
    match env.openDatabase with
    | Except.error e => { result := Except.error e, databaseOpened := false, registered := [] }
    | Except.ok _ =>
      let p := register_defaults cfg [] cfg.default_outputs
      match p.snd with
      | Except.error e => { result := Except.error e, databaseOpened := true, registered := p.fst }
      | Except.ok _ =>
        { result := join_builds (p.fst.map env.await), databaseOpened := true
          registered := p.fst }

/-! Concrete instances used to evaluate the development on explicit
inputs. -/

/-- Configuration with an empty outputs map. -/
def cfg0 : Configuration := { outputs := fun _ => none, default_outputs := [] }

/-- Filesystem for the up-to-date scenario: the one explicit input, the
one order-only input and the one output all exist. -/
def fs1 : FS := fun p =>
  if p == "main.c" then some ⟨5, 6⟩
  else if p == "a.out" then some ⟨9, 0⟩
  else if p == "hdr" then some ⟨1, 1⟩
  else none

/-- Rule of the b1 scenario. -/
def rule1 : Rule := { command := "cc main.c", description := some "CC" }

/-- Target compiling one source file with one order-only input. -/
def b1 : Build :=
  { id := "a.out", rule := some { command := "cc main.c", description := some "CC" }
    inputs := ["main.c"], order_only_inputs := ["hdr"], outputs := ["a.out"]
    implicit_outputs := [], dynamic_module := none }

/-- Fingerprint of the b1 scenario. -/
def h1 : Nat := fingerprint (some "cc main.c") [⟨5, 6⟩]

/-- Environment of the up-to-date scenario: the database already stores
the b1 fingerprint and commands succeed. -/
def env1 : Env :=
  { fs := fs1, fileContents := fun _ => none
    parseCompile := fun _ => Except.error (BuildError.parseCompileError "p")
    graphInsert := fun _ => Except.ok (), await := fun _ => Except.ok ()
    dbGet := fun _ => Except.ok (some h1), dbSet := fun _ _ => Except.ok ()
    runCommand := fun _ => { stdout := "", stderr := "", exitCode := some 0 }
    debug := true }

/-- Target whose command fails. -/
def b4 : Build :=
  { id := "t4", rule := some { command := "false", description := none }
    inputs := [], order_only_inputs := [], outputs := ["t4"]
    implicit_outputs := [], dynamic_module := none }

/-- Environment where the database has no entry and every command exits
with status one. -/
def env4 : Env :=
  { fs := fun _ => none, fileContents := fun _ => none
    parseCompile := fun _ => Except.error (BuildError.parseCompileError "p")
    graphInsert := fun _ => Except.ok (), await := fun _ => Except.ok ()
    dbGet := fun _ => Except.ok none, dbSet := fun _ _ => Except.ok ()
    runCommand := fun _ => { stdout := "", stderr := "out\n", exitCode := some 1 }
    debug := false }

/-- Target with a dynamic module whose fragment lists an input that no
configured target produces. -/
def b3 : Build :=
  { id := "t3", rule := none, inputs := [], order_only_inputs := []
    outputs := ["o"], implicit_outputs := [], dynamic_module := some "d.dd" }

/-- Configuration producing the output of b3 and nothing else. -/
def cfg3 : Configuration :=
  { outputs := fun p => if p == "o" then some b3 else none, default_outputs := ["o"] }

/-- Fragment mapping the output of b3 to the unknown input x. -/
def dcfg3 : DynamicConfiguration :=
  { outputs := fun p => if p == "o" then some ["x"] else none }

/-- Environment delivering the d.dd fragment of the b3 scenario. -/
def env3 : Env :=
  { fs := fun _ => some ⟨0, 0⟩, fileContents := fun p => if p == "d.dd" then some "dd" else none
    parseCompile := fun s => if s == "dd" then Except.ok dcfg3
      else Except.error (BuildError.parseCompileError "p")
    graphInsert := fun _ => Except.ok (), await := fun _ => Except.ok ()
    dbGet := fun _ => Except.ok none, dbSet := fun _ _ => Except.ok ()
    runCommand := fun _ => { stdout := "", stderr := "", exitCode := some 0 }
    debug := false }

/-- Target with no rule and one output that does not exist on disk. -/
def b6 : Build :=
  { id := "t6", rule := none, inputs := [], order_only_inputs := []
    outputs := ["out"], implicit_outputs := [], dynamic_module := none }

/-- Fingerprint of the b6 scenario. -/
def h6 : Nat := fingerprint none []

/-- Environment for the b6 scenario: no file exists and the database
already stores the b6 fingerprint. -/
def env6 : Env :=
  { fs := fun _ => none, fileContents := fun _ => none
    parseCompile := fun _ => Except.error (BuildError.parseCompileError "p")
    graphInsert := fun _ => Except.ok (), await := fun _ => Except.ok ()
    dbGet := fun _ => Except.ok (some h6), dbSet := fun _ _ => Except.ok ()
    runCommand := fun _ => { stdout := "", stderr := "", exitCode := some 0 }
    debug := false }

/-- Target whose only input is a source file that does not exist. -/
def b6w : Build :=
  { id := "t6w", rule := none, inputs := ["missing.c"], order_only_inputs := []
    outputs := [], implicit_outputs := [], dynamic_module := none }

/-- Target equivalent to b1 for fingerprinting: same command, and its
input carries the same timestamp under fs7. -/
def b7 : Build :=
  { id := "b.out", rule := some { command := "cc main.c", description := none }
    inputs := ["other.c"], order_only_inputs := [], outputs := ["b.out"]
    implicit_outputs := [], dynamic_module := none }

/-- Filesystem giving the b7 input the timestamp that fs1 gives the b1
input. -/
def fs7 : FS := fun p => if p == "other.c" then some ⟨5, 6⟩ else none

/-- Filesystem on which every stat fails. -/
def fs0 : FS := fun _ => none

/-- Run environment whose graph validation fails with a cycle. -/
def renv10 : RunEnv :=
  { validateGraph := Except.error (BuildError.graphError "cycle")
    openDatabase := Except.ok (), await := fun _ => Except.ok () }

/-! Helper lemmas about the task body reduction. -/

theorem task_body_of_await_inputs_error (cfg : Configuration) (env : Env) (b : Build)
    (e : BuildError) (hA : await_inputs cfg env b = Except.error e) :
    task_body cfg env b = failTask e := by
  unfold task_body
  rw [hA]

theorem task_body_of_resolve_error (cfg : Configuration) (env : Env) (b : Build)
    (e : BuildError) (hA : await_inputs cfg env b = Except.ok ())
    (hD : resolve_dynamic env b = Except.error e) :
    task_body cfg env b = failTask e := by
  unfold task_body
  rw [hA, hD]

theorem task_body_of_await_dynamic_error (cfg : Configuration) (env : Env) (b : Build)
    (d : List String) (e : BuildError) (hA : await_inputs cfg env b = Except.ok ())
    (hD : resolve_dynamic env b = Except.ok d)
    (hC : await_dynamic cfg env d = Except.error e) :
    task_body cfg env b = failTask e := by
  unfold task_body
  simp only [hA, hD, hC]

theorem task_body_of_hash_error (cfg : Configuration) (env : Env) (b : Build)
    (d : List String) (e : BuildError) (hA : await_inputs cfg env b = Except.ok ())
    (hD : resolve_dynamic env b = Except.ok d)
    (hC : await_dynamic cfg env d = Except.ok ())
    (hH : hash_build b d env.fs = Except.error e) :
    task_body cfg env b = failTask e := by
  unfold task_body
  simp only [hA, hD, hC, hH]

theorem task_body_of_dbGet_error (cfg : Configuration) (env : Env) (b : Build)
    (d : List String) (h : Nat) (e : BuildError) (hA : await_inputs cfg env b = Except.ok ())
    (hD : resolve_dynamic env b = Except.ok d)
    (hC : await_dynamic cfg env d = Except.ok ())
    (hH : hash_build b d env.fs = Except.ok h)
    (hG : env.dbGet b.id = Except.error e) :
    task_body cfg env b = failTask e := by
  unfold task_body
  simp only [hA, hD, hC, hH, hG]

theorem task_body_eq_finish (cfg : Configuration) (env : Env) (b : Build)
    (d : List String) (h : Nat) (stored : Option Nat)
    (hA : await_inputs cfg env b = Except.ok ())
    (hD : resolve_dynamic env b = Except.ok d)
    (hC : await_dynamic cfg env d = Except.ok ())
    (hH : hash_build b d env.fs = Except.ok h)
    (hG : env.dbGet b.id = Except.ok stored) :
    task_body cfg env b = finish_task env b h stored := by
  unfold task_body
  simp only [hA, hD, hC, hH, hG]

theorem up_to_date_guard_true (b : Build) (fs : FS) (h : Nat) (stored : Option Nat)
    (h1 : stored = some h) (h2 : outputs_exist b fs = true) :
    (stored == some h && outputs_exist b fs) = true := by
  subst h1
  simp [h2]

theorem up_to_date_guard_false (b : Build) (fs : FS) (h : Nat) (stored : Option Nat)
    (hc : ¬(stored = some h ∧ outputs_exist b fs = true)) :
    (stored == some h && outputs_exist b fs) = false := by
  rcases hb : (stored == some h && outputs_exist b fs) with _ | _
  · rfl
  · rw [Bool.and_eq_true, beq_iff_eq] at hb
    exact absurd hb hc

theorem finish_task_guard_true (env : Env) (b : Build) (h : Nat) (stored : Option Nat)
    (hg : (stored == some h && outputs_exist b env.fs) = true) :
    finish_task env b h stored =
      { result := Except.ok (), dbWrites := [], commandsRun := [], events := [] } := by
  unfold finish_task
  rw [hg]
  simp

theorem finish_task_guard_false_none (env : Env) (b : Build) (h : Nat) (stored : Option Nat)
    (hg : (stored == some h && outputs_exist b env.fs) = false) (hr : b.rule = none) :
    finish_task env b h stored =
      (match env.dbSet b.id h with
       | Except.error e =>
         { result := Except.error e, dbWrites := [], commandsRun := [], events := [] }
       | Except.ok _ =>
         { result := Except.ok (), dbWrites := [(b.id, h)], commandsRun := [], events := [] }) := by
  unfold finish_task
  rw [hg, hr]
  simp

theorem finish_task_guard_false_some (env : Env) (b : Build) (h : Nat) (stored : Option Nat)
    (rule : Rule) (hg : (stored == some h && outputs_exist b env.fs) = false)
    (hr : b.rule = some rule) :
    finish_task env b h stored =
      (match (run_rule env rule).result with
       | Except.error e =>
         { result := Except.error e, dbWrites := [], commandsRun := [rule.command]
           events := (run_rule env rule).events }
       | Except.ok _ =>
         match env.dbSet b.id h with
         | Except.error e =>
           { result := Except.error e, dbWrites := [], commandsRun := [rule.command]
             events := (run_rule env rule).events }
         | Except.ok _ =>
           { result := Except.ok (), dbWrites := [(b.id, h)], commandsRun := [rule.command]
             events := (run_rule env rule).events }) := by
  unfold finish_task
  rw [hg, hr]
  simp

/-- C1: for every target b whose input and dynamic-input handles have
all succeeded, the task body returns success without running the
command of b and without writing the database if and only if the stored
fingerprint of b.id equals the freshly computed fingerprint and every
output and implicit output of b exists on disk; otherwise, when b has a
rule, the command of the rule is run. -/
theorem c1_skip_iff_up_to_date (cfg : Configuration) (env : Env) (b : Build)
    (d : List String) (h : Nat) (stored : Option Nat)
    (hA : await_inputs cfg env b = Except.ok ())
    (hD : resolve_dynamic env b = Except.ok d)
    (hC : await_dynamic cfg env d = Except.ok ())
    (hH : hash_build b d env.fs = Except.ok h)
    (hG : env.dbGet b.id = Except.ok stored) :
    (((task_body cfg env b).result = Except.ok () ∧
        (task_body cfg env b).commandsRun = [] ∧
        (task_body cfg env b).dbWrites = []) ↔
      (stored = some h ∧ outputs_exist b env.fs = true)) ∧
    (∀ r, b.rule = some r → ¬(stored = some h ∧ outputs_exist b env.fs = true) →
      (task_body cfg env b).commandsRun = [r.command]) := by
  rw [task_body_eq_finish cfg env b d h stored hA hD hC hH hG]
  by_cases hcond : stored = some h ∧ outputs_exist b env.fs = true
  · rw [finish_task_guard_true env b h stored
      (up_to_date_guard_true b env.fs h stored hcond.1 hcond.2)]
    exact ⟨⟨fun _ => hcond, fun _ => ⟨rfl, rfl, rfl⟩⟩, fun r _ hnc => absurd hcond hnc⟩
  · have hg := up_to_date_guard_false b env.fs h stored hcond
    cases hr : b.rule with
    | none =>
      rw [finish_task_guard_false_none env b h stored hg hr]
      cases hs : env.dbSet b.id h with
      | error e => simp [hcond, hr]
      | ok u => simp [hcond, hr]
    | some rule =>
      rw [finish_task_guard_false_some env b h stored rule hg hr]
      cases hrr : (run_rule env rule).result with
      | error e => simp [hcond, hr]
      | ok u =>
        cases hs : env.dbSet b.id h with
        | error e => simp [hcond, hr]
        | ok v => simp [hcond, hr]

/-- C1 witness: in the concrete up-to-date scenario the task body skips
with success, no command and no database write. -/
theorem c1_skip_iff_up_to_date_witness :
    (task_body cfg0 env1 b1).result = Except.ok () ∧
      (task_body cfg0 env1 b1).commandsRun = [] ∧
      (task_body cfg0 env1 b1).dbWrites = [] :=
  (c1_skip_iff_up_to_date cfg0 env1 b1 [] h1 (some h1) rfl rfl rfl rfl rfl).1.mpr
    ⟨rfl, rfl⟩

/-- C4: the database entry for a target is written only when every
preceding phase of the task body succeeded and, when a rule is present,
its command exited successfully; on any task failure no database write
occurs for that target. -/
theorem c4_write_only_after_success (cfg : Configuration) (env : Env) (b : Build) :
    (∀ e, (task_body cfg env b).result = Except.error e →
      (task_body cfg env b).dbWrites = []) ∧
    ((task_body cfg env b).dbWrites ≠ [] →
      await_inputs cfg env b = Except.ok () ∧
      ∃ d h, resolve_dynamic env b = Except.ok d ∧
        await_dynamic cfg env d = Except.ok () ∧
        hash_build b d env.fs = Except.ok h ∧
        env.dbSet b.id h = Except.ok () ∧
        (task_body cfg env b).dbWrites = [(b.id, h)] ∧
        (task_body cfg env b).result = Except.ok () ∧
        ∀ r, b.rule = some r → (run_rule env r).result = Except.ok ()) := by
  cases hA : await_inputs cfg env b with
  | error e =>
    rw [task_body_of_await_inputs_error cfg env b e hA]
    simp [failTask]
  | ok u =>
    cases u
    cases hD : resolve_dynamic env b with
    | error e =>
      rw [task_body_of_resolve_error cfg env b e hA hD]
      simp [failTask]
    | ok d =>
      cases hC : await_dynamic cfg env d with
      | error e =>
        rw [task_body_of_await_dynamic_error cfg env b d e hA hD hC]
        simp [failTask]
      | ok v =>
        cases v
        cases hH : hash_build b d env.fs with
        | error e =>
          rw [task_body_of_hash_error cfg env b d e hA hD hC hH]
          simp [failTask]
        | ok h =>
          cases hG : env.dbGet b.id with
          | error e =>
            rw [task_body_of_dbGet_error cfg env b d h e hA hD hC hH hG]
            simp [failTask]
          | ok stored =>
            rw [task_body_eq_finish cfg env b d h stored hA hD hC hH hG]
            cases hg : (stored == some h && outputs_exist b env.fs) with
            | true =>
              rw [finish_task_guard_true env b h stored hg]
              simp
            | false =>
              cases hr : b.rule with
              | none =>
                rw [finish_task_guard_false_none env b h stored hg hr]
                cases hs : env.dbSet b.id h with
                | error e => simp
                | ok w =>
                  cases w
                  refine ⟨fun e he => by simp at he, fun _ => ⟨rfl, d, h, rfl, hC, hH, hs,
                    rfl, rfl, fun r hr0 => by cases hr0⟩⟩
              | some rule =>
                rw [finish_task_guard_false_some env b h stored rule hg hr]
                cases hrr : (run_rule env rule).result with
                | error e => simp
                | ok v =>
                  cases v
                  cases hs : env.dbSet b.id h with
                  | error e => simp
                  | ok w =>
                    cases w
                    refine ⟨fun e he => by simp at he, fun _ => ⟨rfl, d, h, rfl, hC, hH, hs,
                      rfl, rfl, fun r hr0 => ?_⟩⟩
                    cases hr0
                    exact hrr

/-- C4 witness: in the concrete failing-command scenario the task fails
and no database write occurs. -/
theorem c4_write_only_after_success_witness :
    (task_body cfg0 env4 b4).dbWrites = [] :=
  (c4_write_only_after_success cfg0 env4 b4).1
    (BuildError.commandExit "false" (some 1)) (by decide)

/-- C6 counterexample: in the concrete scenario the output of the
target is absent, so the existence probe of the staleness decision
produces a filesystem stat error inside the task body, yet the task
reaches terminal success and even writes the database, refuting the
claim that every filesystem stat failure inside a task becomes the
terminal failed state of its handle. -/
theorem c6_counterexample :
    ("out" ∈ b6.outputs ∧
      check_file_existence env6.fs "out" = Except.error (BuildError.ioError "out")) ∧
    (task_body cfg0 env6 b6).result = Except.ok () ∧
    (task_body cfg0 env6 b6).dbWrites = [("t6", h6)] := by
  decide

/-- C6 amended: every error that propagates out of a step of the task
body, that is input await failures, dynamic module read, parse, compile
or insertion failures, dynamic input await failures, fingerprinting
failures, database read failures, command failures and database write
failures, becomes the terminal failed state of the handle of the task;
the output-existence probe of the staleness decision is the one
exception, its stat failures being consumed as not up to date. -/
theorem c6_errors_propagate (cfg : Configuration) (env : Env) (b : Build) :
    (∀ e, await_inputs cfg env b = Except.error e →
      (task_body cfg env b).result = Except.error e) ∧
    (∀ e, await_inputs cfg env b = Except.ok () →
      resolve_dynamic env b = Except.error e →
      (task_body cfg env b).result = Except.error e) ∧
    (∀ d e, await_inputs cfg env b = Except.ok () →
      resolve_dynamic env b = Except.ok d →
      await_dynamic cfg env d = Except.error e →
      (task_body cfg env b).result = Except.error e) ∧
    (∀ d e, await_inputs cfg env b = Except.ok () →
      resolve_dynamic env b = Except.ok d →
      await_dynamic cfg env d = Except.ok () →
      hash_build b d env.fs = Except.error e →
      (task_body cfg env b).result = Except.error e) ∧
    (∀ d h e, await_inputs cfg env b = Except.ok () →
      resolve_dynamic env b = Except.ok d →
      await_dynamic cfg env d = Except.ok () →
      hash_build b d env.fs = Except.ok h →
      env.dbGet b.id = Except.error e →
      (task_body cfg env b).result = Except.error e) ∧
    (∀ d h stored rule e, await_inputs cfg env b = Except.ok () →
      resolve_dynamic env b = Except.ok d →
      await_dynamic cfg env d = Except.ok () →
      hash_build b d env.fs = Except.ok h →
      env.dbGet b.id = Except.ok stored →
      (stored == some h && outputs_exist b env.fs) = false →
      b.rule = some rule →
      (run_rule env rule).result = Except.error e →
      (task_body cfg env b).result = Except.error e) ∧
    (∀ d h stored e, await_inputs cfg env b = Except.ok () →
      resolve_dynamic env b = Except.ok d →
      await_dynamic cfg env d = Except.ok () →
      hash_build b d env.fs = Except.ok h →
      env.dbGet b.id = Except.ok stored →
      (stored == some h && outputs_exist b env.fs) = false →
      b.rule = none →
      env.dbSet b.id h = Except.error e →
      (task_body cfg env b).result = Except.error e) ∧
    (∀ d h stored rule e, await_inputs cfg env b = Except.ok () →
      resolve_dynamic env b = Except.ok d →
      await_dynamic cfg env d = Except.ok () →
      hash_build b d env.fs = Except.ok h →
      env.dbGet b.id = Except.ok stored →
      (stored == some h && outputs_exist b env.fs) = false →
      b.rule = some rule →
      (run_rule env rule).result = Except.ok () →
      env.dbSet b.id h = Except.error e →
      (task_body cfg env b).result = Except.error e) := by
  refine ⟨?_, ?_, ?_, ?_, ?_, ?_, ?_, ?_⟩
  · intro e hA
    rw [task_body_of_await_inputs_error cfg env b e hA]
    rfl
  · intro e hA hD
    rw [task_body_of_resolve_error cfg env b e hA hD]
    rfl
  · intro d e hA hD hC
    rw [task_body_of_await_dynamic_error cfg env b d e hA hD hC]
    rfl
  · intro d e hA hD hC hH
    rw [task_body_of_hash_error cfg env b d e hA hD hC hH]
    rfl
  · intro d h e hA hD hC hH hG
    rw [task_body_of_dbGet_error cfg env b d h e hA hD hC hH hG]
    rfl
  · intro d h stored rule e hA hD hC hH hG hg hr hrr
    rw [task_body_eq_finish cfg env b d h stored hA hD hC hH hG,
      finish_task_guard_false_some env b h stored rule hg hr, hrr]
  · intro d h stored e hA hD hC hH hG hg hr hs
    rw [task_body_eq_finish cfg env b d h stored hA hD hC hH hG,
      finish_task_guard_false_none env b h stored hg hr, hs]
  · intro d h stored rule e hA hD hC hH hG hg hr hrr hs
    rw [task_body_eq_finish cfg env b d h stored hA hD hC hH hG,
      finish_task_guard_false_some env b h stored rule hg hr, hrr, hs]

/-- C6 witness: a missing source file in phase A becomes the terminal
failed state of the concrete task. -/
theorem c6_errors_propagate_witness :
    (task_body cfg0 env6 b6w).result = Except.error (BuildError.ioError "missing.c") :=
  (c6_errors_propagate cfg0 env6 b6w).1 (BuildError.ioError "missing.c") rfl

/-! Helper lemmas about timestamp collection and byte encodings. -/

theorem collect_timestamps_of_all_some (fs : FS) (l : List String)
    (hall : ∀ i ∈ l, (fs i).isSome = true) :
    collect_timestamps fs l = Except.ok (l.map fun i => (fs i).getD ⟨0, 0⟩) := by
  induction l with
  | nil => rfl
  | cons a rest ih =>
    have ha := hall a (List.mem_cons_self a rest)
    cases hfa : fs a with
    | none => rw [hfa] at ha; simp at ha
    | some t =>
      unfold collect_timestamps
      rw [hfa, ih fun i hi => hall i (List.mem_cons_of_mem a hi)]
      simp [hfa]

theorem collect_timestamps_of_missing (fs : FS) (l : List String)
    (hex : ∃ i ∈ l, fs i = none) :
    ∃ j, j ∈ l ∧ fs j = none ∧
      collect_timestamps fs l = Except.error (BuildError.ioError j) := by
  induction l with
  | nil =>
    rcases hex with ⟨i, hi, _⟩
    cases hi
  | cons a rest ih =>
    cases hfa : fs a with
    | none =>
      refine ⟨a, List.mem_cons_self a rest, hfa, ?_⟩
      unfold collect_timestamps
      rw [hfa]
    | some t =>
      have hex2 : ∃ i ∈ rest, fs i = none := by
        rcases hex with ⟨i, hi, hni⟩
        rcases List.mem_cons.mp hi with rfl | hmem
        · rw [hfa] at hni; cases hni
        · exact ⟨i, hmem, hni⟩
      rcases ih hex2 with ⟨j, hjmem, hjn, hje⟩
      refine ⟨j, List.mem_cons_of_mem a hjmem, hjn, ?_⟩
      unfold collect_timestamps
      rw [hfa, hje]

theorem natLEBytes_length (n w : Nat) : (natLEBytes n w).length = w := by
  induction w generalizing n with
  | zero => rfl
  | succ w ih => simp [natLEBytes, ih]

theorem natLEBytes_getElem (n w i : Nat) (hi : i < w) :
    (natLEBytes n w)[i]? = some (n / 256 ^ i % 256) := by
  induction w generalizing n i with
  | zero => omega
  | succ w ih =>
    cases i with
    | zero => simp [natLEBytes]
    | succ j =>
      have hj := ih (n / 256) j (by omega)
      have hpow : 256 * 256 ^ j = 256 ^ (j + 1) := (pow_succ' 256 j).symm
      simp only [natLEBytes, List.getElem?_cons_succ, hj, Nat.div_div_eq_div_mul, hpow]

/-- C2: the computed fingerprint derives from the optional command of
the target followed by the timestamps of the explicit inputs and then
of the dynamic inputs, in that order; order-only inputs contribute
nothing; and when an explicit or dynamic input cannot be stated the
computation fails with an I/O error carrying such a path instead of
returning a value. -/
theorem c2_fingerprint_structure (b : Build) (d : List String) (fs : FS) :
    (∀ l, hash_build { b with order_only_inputs := l } d fs = hash_build b d fs) ∧
    ((∀ i ∈ b.inputs ++ d, (fs i).isSome = true) →
      hash_build b d fs =
        Except.ok (fingerprint (b.rule.map Rule.command)
          ((b.inputs ++ d).map fun i => (fs i).getD ⟨0, 0⟩))) ∧
    ((∃ i ∈ b.inputs ++ d, fs i = none) →
      ∃ j, j ∈ b.inputs ++ d ∧ fs j = none ∧
        hash_build b d fs = Except.error (BuildError.ioError j)) := by
  refine ⟨fun l => rfl, fun hall => ?_, fun hex => ?_⟩
  · unfold hash_build
    rw [collect_timestamps_of_all_some fs (b.inputs ++ d) hall]
  · rcases collect_timestamps_of_missing fs (b.inputs ++ d) hex with ⟨j, hm, hn, he⟩
    refine ⟨j, hm, hn, ?_⟩
    unfold hash_build
    rw [he]

/-- C2 witness: with a filesystem on which every stat fails, the
fingerprint computation over the b1 inputs and one dynamic input fails
with an I/O error carrying a missing input path. -/
theorem c2_fingerprint_structure_witness :
    ∃ j, j ∈ b1.inputs ++ ["gen.h"] ∧ fs0 j = none ∧
      hash_build b1 ["gen.h"] fs0 = Except.error (BuildError.ioError j) :=
  (c2_fingerprint_structure b1 ["gen.h"] fs0).2.2 ⟨"main.c", by decide, rfl⟩

/-- C7: the fingerprint is a deterministic function of the command
string and the sequence of input timestamps, so two targets with equal
commands whose explicit plus dynamic inputs carry equal timestamp
sequences, even on different filesystems, hash identically; the
timestamp encoding places the little-endian bytes of the seconds at
positions zero to seven and the little-endian bytes of the nanoseconds
at positions eight to eleven. -/
theorem c7_fingerprint_deterministic (ba bb : Build) (da db : List String)
    (fsa fsb : FS) (ts : List Timestamp) :
    (ba.rule.map Rule.command = bb.rule.map Rule.command →
      collect_timestamps fsa (ba.inputs ++ da) = Except.ok ts →
      collect_timestamps fsb (bb.inputs ++ db) = Except.ok ts →
      hash_build ba da fsa = hash_build bb db fsb) ∧
    (∀ t : Timestamp, ∀ i, i < 8 →
      (encode_timestamp t)[i]? = some (t.secs / 256 ^ i % 256)) ∧
    (∀ t : Timestamp, ∀ i, i < 4 →
      (encode_timestamp t)[8 + i]? = some (t.nanos / 256 ^ i % 256)) ∧
    (∀ t : Timestamp, (encode_timestamp t).length = 12) := by
  refine ⟨fun hcmd hca hcb => ?_, fun t i hi => ?_, fun t i hi => ?_, fun t => ?_⟩
  · unfold hash_build
    rw [hca, hcb, hcmd]
  · unfold encode_timestamp
    rw [List.getElem?_append, natLEBytes_length, if_pos hi]
    exact natLEBytes_getElem t.secs 8 i hi
  · unfold encode_timestamp
    rw [List.getElem?_append_right (by rw [natLEBytes_length]; omega)]
    rw [natLEBytes_length]
    have h8 : 8 + i - 8 = i := by omega
    rw [h8]
    exact natLEBytes_getElem t.nanos 4 i hi
  · unfold encode_timestamp
    rw [List.length_append, natLEBytes_length, natLEBytes_length]

/-- C7 witness: the concrete targets b1 and b7 share the command and
their inputs carry the same timestamps under different filesystems, so
their fingerprints agree. -/
theorem c7_fingerprint_deterministic_witness :
    hash_build b1 [] fs1 = hash_build b7 [] fs7 :=
  (c7_fingerprint_deterministic b1 b7 [] [] fs1 fs7 [⟨5, 6⟩]).1 rfl rfl rfl

/-! Helper lemmas about the dynamic input collection and lookup. -/

theorem collect_dynamic_of_missing (cfg : Configuration) (l : List String)
    (hex : ∃ i ∈ l, cfg.outputs i = none) :
    ∃ j, j ∈ l ∧ cfg.outputs j = none ∧
      collect_dynamic cfg l = Except.error (BuildError.keyNotFoundPanic j) := by
  induction l with
  | nil =>
    rcases hex with ⟨i, hi, _⟩
    cases hi
  | cons a rest ih =>
    cases hfa : cfg.outputs a with
    | none =>
      refine ⟨a, List.mem_cons_self a rest, hfa, ?_⟩
      unfold collect_dynamic
      rw [hfa]
    | some producer =>
      have hex2 : ∃ i ∈ rest, cfg.outputs i = none := by
        rcases hex with ⟨i, hi, hni⟩
        rcases List.mem_cons.mp hi with rfl | hmem
        · rw [hfa] at hni; cases hni
        · exact ⟨i, hmem, hni⟩
      rcases ih hex2 with ⟨j, hjmem, hjn, hje⟩
      refine ⟨j, List.mem_cons_of_mem a hjmem, hjn, ?_⟩
      unfold collect_dynamic
      rw [hfa, hje]

/-- C3 counterexample: in the concrete scenario the dynamic fragment of
the target lists the input x that no configured target produces, and
the task terminates with the key-lookup panic failure, not with the
dynamic dependency not found error that the claim announces. -/
theorem c3_counterexample :
    (task_body cfg3 env3 b3).result = Except.error (BuildError.keyNotFoundPanic "x") ∧
    (task_body cfg3 env3 b3).result ≠
      Except.error (BuildError.dynamicDependencyNotFound "t3") := by
  decide

/-- C3 amended: for every dynamic input entry whose name has no
producing target in the original configuration outputs map, the task
terminates abnormally with the key-lookup panic failure arising from
indexing the outputs map, which is a task failure distinct from the
dynamic dependency not found error. -/
theorem c3_missing_dynamic_input_panics (cfg : Configuration) (env : Env) (b : Build)
    (d : List String)
    (hA : await_inputs cfg env b = Except.ok ())
    (hD : resolve_dynamic env b = Except.ok d)
    (hex : ∃ i ∈ d, cfg.outputs i = none) :
    ∃ j, j ∈ d ∧ cfg.outputs j = none ∧
      (task_body cfg env b).result = Except.error (BuildError.keyNotFoundPanic j) ∧
      ∀ s, (task_body cfg env b).result ≠
        Except.error (BuildError.dynamicDependencyNotFound s) := by
  rcases collect_dynamic_of_missing cfg d hex with ⟨j, hm, hn, hc⟩
  have hC : await_dynamic cfg env d = Except.error (BuildError.keyNotFoundPanic j) := by
    unfold await_dynamic
    rw [hc]
  rw [task_body_of_await_dynamic_error cfg env b d (BuildError.keyNotFoundPanic j) hA hD hC]
  exact ⟨j, hm, hn, rfl, fun s h => by simp [failTask] at h⟩

/-- C3 amended witness: the concrete scenario of the counterexample
satisfies the hypotheses of the amended claim. -/
theorem c3_missing_dynamic_input_panics_witness :
    ∃ j, j ∈ ["x"] ∧ cfg3.outputs j = none ∧
      (task_body cfg3 env3 b3).result = Except.error (BuildError.keyNotFoundPanic j) ∧
      ∀ s, (task_body cfg3 env3 b3).result ≠
        Except.error (BuildError.dynamicDependencyNotFound s) :=
  c3_missing_dynamic_input_panics cfg3 env3 b3 ["x"] rfl rfl ⟨"x", by decide, rfl⟩

theorem findSome?_of_prefix_none {α β : Type} (f : α → Option β) (pre : List α) (o : α)
    (post : List α) (v : β) (hpre : ∀ x ∈ pre, f x = none) (ho : f o = some v) :
    (pre ++ o :: post).findSome? f = some v := by
  induction pre with
  | nil => simp [List.findSome?, ho]
  | cons a pre ih =>
    have ha := hpre a (List.mem_cons_self a pre)
    simp only [List.cons_append, List.findSome?, ha]
    exact ih fun x hx => hpre x (List.mem_cons_of_mem a hx)

theorem findSome?_of_all_none {α β : Type} (f : α → Option β) (l : List α)
    (hall : ∀ x ∈ l, f x = none) : l.findSome? f = none := by
  induction l with
  | nil => rfl
  | cons a rest ih =>
    have ha := hall a (List.mem_cons_self a rest)
    simp only [List.findSome?, ha]
    exact ih fun x hx => hall x (List.mem_cons_of_mem a hx)

/-- C8: with a dynamic module, once the compiled fragment is inserted
into the graph registry the dynamic input list is the input list of the
first output of the target that occurs in the fragment outputs mapping;
when no output of the target occurs there, the task fails with the
dynamic dependency not found error; an insertion failure fails the
resolution first; and without a dynamic module the dynamic input list
is empty. -/
theorem c8_dynamic_inputs_resolution (env : Env) (b : Build) :
    (b.dynamic_module = none → resolve_dynamic env b = Except.ok []) ∧
    (∀ m s dcfg, b.dynamic_module = some m → env.fileContents m = some s →
      env.parseCompile s = Except.ok dcfg → env.graphInsert dcfg = Except.ok () →
      (∀ pre o post ins, b.outputs = pre ++ o :: post →
        (∀ x ∈ pre, dcfg.outputs x = none) → dcfg.outputs o = some ins →
        resolve_dynamic env b = Except.ok ins) ∧
      ((∀ o ∈ b.outputs, dcfg.outputs o = none) →
        resolve_dynamic env b = Except.error (BuildError.dynamicDependencyNotFound b.id))) ∧
    (∀ m s dcfg e, b.dynamic_module = some m → env.fileContents m = some s →
      env.parseCompile s = Except.ok dcfg → env.graphInsert dcfg = Except.error e →
      resolve_dynamic env b = Except.error e) := by
  refine ⟨fun hm => ?_, fun m s dcfg hm hfc hpc hgi => ⟨?_, ?_⟩, fun m s dcfg e hm hfc hpc hgi => ?_⟩
  · unfold resolve_dynamic
    rw [hm]
  · intro pre o post ins ho hpre hins
    unfold resolve_dynamic
    rw [hm]
    have hrf : read_file env m = Except.ok s := by
      unfold read_file
      rw [hfc]
    simp only [hrf, hpc, hgi, ho,
      findSome?_of_prefix_none dcfg.outputs pre o post ins hpre hins]
  · intro hnone
    unfold resolve_dynamic
    rw [hm]
    have hrf : read_file env m = Except.ok s := by
      unfold read_file
      rw [hfc]
    simp only [hrf, hpc, hgi, findSome?_of_all_none dcfg.outputs b.outputs hnone]
  · unfold resolve_dynamic
    rw [hm]
    have hrf : read_file env m = Except.ok s := by
      unfold read_file
      rw [hfc]
    simp only [hrf, hpc, hgi]

/-- C8 witness: the concrete target b1 has no dynamic module, so its
dynamic input list is empty. -/
theorem c8_dynamic_inputs_resolution_witness :
    resolve_dynamic env1 b1 = Except.ok [] :=
  (c8_dynamic_inputs_resolution env1 b1).1 rfl

/-! Helper lemmas about the task table. -/

theorem countKey_zero_of_lookup_none (t : TaskTable) (k : String)
    (h : t.lookup k = none) : countKey t k = 0 := by
  induction t with
  | nil => rfl
  | cons p rest ih =>
    rcases p with ⟨a, v⟩
    by_cases hak : k = a
    · subst hak
      simp [List.lookup] at h
    · have hka : (k == a) = false := beq_eq_false_iff_ne.mpr hak
      have hak2 : (a == k) = false := beq_eq_false_iff_ne.mpr (Ne.symm hak)
      simp only [List.lookup, hka] at h
      unfold countKey
      simp only [List.filter, hak2]
      exact ih h

/-- C5: registering a target whose identity is already in the task
table returns without spawning and without replacing the stored handle;
otherwise exactly one handle is inserted for that identity, other
identities being untouched; and the at-most-one-handle-per-identity
invariant is preserved.  The exclusive table lock of the source is
represented by the registration being a single atomic transition on the
table state. -/
theorem c5_register_at_most_once (t : TaskTable) (buildId : String) (handle : Nat) :
    ((t.lookup buildId).isSome = true → create_build_future t buildId handle = (t, false)) ∧
    (t.lookup buildId = none →
      (create_build_future t buildId handle).2 = true ∧
      (create_build_future t buildId handle).1 = (buildId, handle) :: t ∧
      (create_build_future t buildId handle).1.lookup buildId = some handle ∧
      ∀ k, k ≠ buildId → (create_build_future t buildId handle).1.lookup k = t.lookup k) ∧
    ((∀ k, countKey t k ≤ 1) → ∀ k, countKey (create_build_future t buildId handle).1 k ≤ 1) := by
  refine ⟨fun h => ?_, fun hnone => ?_, fun hinv k => ?_⟩
  · simp [create_build_future, h]
  · have hb : (t.lookup buildId).isSome = false := by rw [hnone]; rfl
    refine ⟨by simp [create_build_future, hb], by simp [create_build_future, hb],
      by simp [create_build_future, hb, List.lookup], fun k hk => ?_⟩
    have hkb : (k == buildId) = false := beq_eq_false_iff_ne.mpr hk
    simp [create_build_future, hb, List.lookup, hkb]
  · unfold create_build_future
    cases hl : t.lookup buildId with
    | some v =>
      simp only [Option.isSome_some, if_true]
      exact hinv k
    | none =>
      simp only [Option.isSome_none, Bool.false_eq_true, if_false]
      by_cases hk : buildId = k
      · subst hk
        unfold countKey
        simp only [List.filter, beq_self_eq_true]
        have h0 : countKey t buildId = 0 := countKey_zero_of_lookup_none t buildId hl
        unfold countKey at h0
        simp [h0]
      · have hkb : (buildId == k) = false := beq_eq_false_iff_ne.mpr hk
        unfold countKey
        simp only [List.filter, hkb]
        exact hinv k

/-- C5 witness: registering an identity already present in a concrete
table is a no-op that spawns nothing. -/
theorem c5_register_at_most_once_witness :
    create_build_future [("a.out", 7)] "a.out" 9 = ([("a.out", 7)], false) :=
  (c5_register_at_most_once [("a.out", 7)] "a.out" 9).1 (by decide)

/-- C9: whenever a rule is executed with the debug flag enabled, the
command string is written to the stderr stream of the console, the
description of the rule, when present, is likewise written to stderr,
and both precede the captured stdout and stderr of the child, the
captured stdout going to the stdout stream and the captured stderr to
the stderr stream. -/
theorem c9_debug_command_on_stderr (env : Env) (rule : Rule) (hdbg : env.debug = true) :
    (run_rule env rule).events =
      (ConsoleStream.stderr, rule.command ++ "\n") ::
        ((match rule.description with
          | some dsc => [(ConsoleStream.stderr, dsc ++ "\n")]
          | none => []) ++
         [(ConsoleStream.stdout, (env.runCommand rule.command).stdout),
          (ConsoleStream.stderr, (env.runCommand rule.command).stderr)]) := by
  unfold run_rule
  rw [hdbg]
  simp

/-- C9 witness: the concrete debug environment emits the command line
and description on stderr before the captured child output. -/
theorem c9_debug_command_on_stderr_witness :
    (run_rule env1 rule1).events =
      [(ConsoleStream.stderr, "cc main.c\n"), (ConsoleStream.stderr, "CC\n"),
       (ConsoleStream.stdout, ""), (ConsoleStream.stderr, "")] := by
  rw [c9_debug_command_on_stderr env1 rule1 rfl]
  decide

/-- C10: run validates the static configuration by constructing the
build graph before opening the database or registering any build task;
when that validation fails, run returns the graph validation error with
the database unopened and no task registered, and the database is only
ever opened after validation succeeded. -/
theorem c10_validation_first (cfg : Configuration) (renv : RunEnv) :
    (∀ e, renv.validateGraph = Except.error e →
      run cfg renv =
        { result := Except.error e, databaseOpened := false, registered := [] }) ∧
    ((run cfg renv).databaseOpened = true → renv.validateGraph = Except.ok ()) := by
  constructor
  · intro e he
    unfold run
    rw [he]
  · intro hdb
    cases hv : renv.validateGraph with
    | error e =>
      rw [run, hv] at hdb
      simp at hdb
    | ok u =>
      cases u
      rfl

/-- C10 witness: with a failing graph validation the concrete run
returns the validation error, opens no database and registers no
task. -/
theorem c10_validation_first_witness :
    run cfg0 renv10 =
      { result := Except.error (BuildError.graphError "cycle"), databaseOpened := false
        registered := [] } :=
  (c10_validation_first cfg0 renv10).1 (BuildError.graphError "cycle") rfl

end Turtle
